import Mathlib

/-!
Shallow embedding of the `g10-food-ordering` delivery service
(`src/delivery-service`).  The repository contains two variants of the
service: a service layer (`app/services/delivery_service.py` together with
`app/services/message_handler.py`), embedded below in namespace `App`, and a
self-contained FastAPI module (`src/main.py`), embedded in namespace `Main`.

Modelling conventions:
* MongoDB collections are association lists `List (κ × α)` ordered by
  insertion; `find_one` returns the first matching document and
  `update_one` modifies the first matching document, mirroring the store's
  single-document semantics (`lookupA`, `updateFirstA`, `modified_count`).
* `datetime.utcnow()` is modelled by an explicit `now : Nat` parameter,
  measured in milliseconds (so `timedelta(minutes := m)` is `m * 60000`,
  and the `$subtract` of two datetimes in the statistics pipeline yields
  milliseconds, divided by `60000` exactly as in the source).
* Python floats are modelled by `ℚ` (coordinates, aggregation results) and
  the real square root by `Real.sqrt`; `int(x)` truncation on a
  non-negative float is `Int.floor`.
* A store operation that can raise is given an explicit failure flag
  (`storeFail`), standing for the `except:` paths of the source.
-/

namespace FoodDelivery

/-! ### Document-store primitives (MongoDB `find_one` / `update_one`) -/

/-- Model of `find_one {_id: k}`: the first document whose key equals `k`. -/
def lookupA {κ α : Type} [DecidableEq κ] : List (κ × α) → κ → Option α
  | [], _ => none
  | (k', v) :: t, k => if k' = k then some v else lookupA t k

/-- Model of a `update_one {_id: k}` write (`$set` / `$push`): rewrite the
first document whose key equals `k` by `f`; no-op when no document matches. -/
def updateFirstA {κ α : Type} [DecidableEq κ] : List (κ × α) → κ → (α → α) → List (κ × α)
  | [], _, _ => []
  | (k', v) :: t, k, f => if k' = k then (k', f v) :: t else (k', v) :: updateFirstA t k f

/-- Model of `UpdateResult.matched_count` of a `update_one {_id: k}` call. -/
def matched_count {κ α : Type} [DecidableEq κ] (l : List (κ × α)) (k : κ) : Nat :=
  if (lookupA l k).isSome then 1 else 0

/-- Model of `UpdateResult.modified_count`: 1 exactly when a document matched and the
update actually changed its stored field values. -/
def modified_count {κ α : Type} [DecidableEq κ] [DecidableEq α]
    (l : List (κ × α)) (k : κ) (f : α → α) : Nat :=
  match lookupA l k with
  | some v => if f v = v then 0 else 1
  | none => 0

/-! ### Service-layer variant: `app/services/delivery_service.py` and
`app/services/message_handler.py` -/

namespace App

/-- One element of a delivery's `tracking_history` array, as pushed by
`DeliveryService.add_tracking_event`. -/
structure TrackEntry where
  event : String
  description : String
  timestamp : Nat
deriving DecidableEq, Repr

/-- A document of the `deliveries` collection as built by
`DeliveryService.create_delivery` (addresses and phone numbers are carried as
opaque strings; `current_location` is latitude/longitude/timestamp). -/
structure DeliveryDoc where
  order_id : String
  customer_id : String
  restaurant_id : String
  pickup_address : String
  delivery_address : String
  customer_phone : Option String
  delivery_instructions : Option String
  status : String
  driver_id : Option Nat
  estimated_delivery_time : Option Nat
  actual_delivery_time : Option Nat
  current_location : Option (ℚ × ℚ × Nat)
  tracking_history : List TrackEntry
  created_at : Nat
  updated_at : Nat
deriving DecidableEq, Repr

/-- The fields of a `drivers` document read or written by this variant
(`status`, `is_online`, `current_delivery_id`, `updated_at`); inert profile
fields (name, phone, vehicle info) are omitted. A missing
`current_delivery_id` (after `$unset`) is `none`. -/
structure DriverDoc where
  status : String
  is_online : Bool
  current_delivery_id : Option Nat
  updated_at : Nat
deriving DecidableEq, Repr

/-- The two collections the service touches. -/
structure State where
  deliveries : List (Nat × DeliveryDoc)
  drivers : List (Nat × DriverDoc)
deriving DecidableEq, Repr

/-- The request payload consumed by `create_delivery`. -/
structure CreateInput where
  order_id : String
  customer_id : String
  restaurant_id : String
  pickup_address : String
  delivery_address : String
  customer_phone : Option String
  delivery_instructions : Option String
deriving DecidableEq, Repr

/-- Model of `DeliveryService.find_available_driver`: `find_one` on
`{"status": "available", "is_online": true}` — the first such driver in
store order; the pickup address is ignored by the source. -/
def find_available_driver (s : State) : Option (Nat × DriverDoc) :=
  s.drivers.find? fun p => p.2.status == "available" && p.2.is_online

/-- Model of `DeliveryService.add_tracking_event`: `$push` one entry onto
`tracking_history`; a match failure (or exception) is swallowed. -/
def add_tracking_event (s : State) (id : Nat) (event description : String) (now : Nat) :
    State :=
  { s with
    deliveries := updateFirstA s.deliveries id fun d =>
      { d with tracking_history := d.tracking_history ++ [⟨event, description, now⟩] } }

/-- Model of `DeliveryService.create_delivery`: build a `pending` document; if an
available driver is found, assign it (status `assigned`,
`estimated_delivery_time = now + 30 minutes`) and mark the driver busy; insert
the document; then append the `"created"` tracking event.  Returns the new
state and the in-memory dict the function returns (which was built before the
tracking event was pushed, so its `tracking_history` is still `[]`). -/
def create_delivery (s : State) (newId : Nat) (inp : CreateInput) (now : Nat) :
    State × DeliveryDoc :=
  let base : DeliveryDoc :=
    { order_id := inp.order_id
      customer_id := inp.customer_id
      restaurant_id := inp.restaurant_id
      pickup_address := inp.pickup_address
      delivery_address := inp.delivery_address
      customer_phone := inp.customer_phone
      delivery_instructions := inp.delivery_instructions
      status := "pending"
      driver_id := none
      estimated_delivery_time := none
      actual_delivery_time := none
      current_location := none
      tracking_history := []
      created_at := now
      updated_at := now }
  let matched := find_available_driver s
  let delivery : DeliveryDoc :=
    match matched with
    | some p =>
        { base with
          driver_id := some p.1
          status := "assigned"
          estimated_delivery_time := some (now + 30 * 60000) }
    | none => base
  let s1 : State :=
    match matched with
    | some p =>
        { s with
          drivers := updateFirstA s.drivers p.1 fun dr =>
            { dr with status := "busy", current_delivery_id := some newId } }
    | none => s
  let s2 : State := { s1 with deliveries := s1.deliveries ++ [(newId, delivery)] }
  (add_tracking_event s2 newId "created" "Delivery created" now, delivery)

/-- Model of `DeliveryService.get_delivery` (the id-stringification of the source is
the identity here; the `except` branch only fires on malformed id strings,
which the `Nat` key type cannot express). -/
def get_delivery (s : State) (id : Nat) : Option DeliveryDoc :=
  lookupA s.deliveries id

/-- Model of `DeliveryService.get_delivery_by_order`: `find_one({"order_id": oid})`. -/
def get_delivery_by_order (s : State) (oid : String) : Option (Nat × DeliveryDoc) :=
  s.deliveries.find? fun p => p.2.order_id == oid

/-- The `status_messages` dict of `handle_status_change`, with its
`dict.get` fallback `"Status updated to {new_status}"`. -/
def status_message (st : String) : String :=
  if st = "assigned" then "Driver assigned to delivery"
  else if st = "picked_up" then "Order picked up from restaurant"
  else if st = "in_transit" then "On the way to delivery address"
  else if st = "delivered" then "Order delivered successfully"
  else if st = "cancelled" then "Delivery cancelled"
  else "Status updated to " ++ st

/-- Model of `DeliveryService.handle_status_change`: append a tracking event for the
new status; on `delivered`/`cancelled` release the assigned driver
(`$set status available`, `$unset current_delivery_id`); on `delivered`
additionally stamp `actual_delivery_time = now`. -/
def handle_status_change (s : State) (id : Nat) (new_status : String) (now : Nat) :
    State :=
  let s1 := add_tracking_event s id new_status (status_message new_status) now
  let s2 :=
    if new_status = "delivered" ∨ new_status = "cancelled" then
      match get_delivery s1 id with
      | some d =>
          match d.driver_id with
          | some did =>
              { s1 with
                drivers := updateFirstA s1.drivers did fun dr =>
                  { dr with status := "available", current_delivery_id := none } }
          | none => s1
      | none => s1
    else s1
  if new_status = "delivered" then
    { s2 with
      deliveries := updateFirstA s2.deliveries id fun d =>
        { d with actual_delivery_time := some now } }
  else s2

/-- The `$set` document of `update_delivery`: the caller-supplied fields (all
in-repository callers pass only `status`) plus the always-added
`updated_at = now`. -/
def applySet (newStatus : Option String) (now : Nat) (d : DeliveryDoc) : DeliveryDoc :=
  let d1 := { d with updated_at := now }
  match newStatus with
  | some st => { d1 with status := st }
  | none => d1

/-- The state after `update_delivery` has run its side effects but before the
final `deliveries.update_one` write. -/
def preUpdateState (s : State) (id : Nat) (newStatus : Option String) (now : Nat) :
    State :=
  match newStatus with
  | some st => handle_status_change s id st now
  | none => s

/-- Model of `DeliveryService.update_delivery`: run `handle_status_change` when a
status is supplied, then `update_one {$set: update_data}`; return the
re-fetched delivery when `modified_count > 0`, else `None`.  `storeFail`
models the final `update_one` raising, in which case the bare `except:`
returns `None` with the earlier side effects left in place. -/
def update_delivery (s : State) (id : Nat) (newStatus : Option String) (now : Nat)
    (storeFail : Bool) : State × Option DeliveryDoc :=
  let s1 := preUpdateState s id newStatus now
  if storeFail then (s1, none)
  else
    let modified := modified_count s1.deliveries id (applySet newStatus now)
    let s2 := { s1 with deliveries := updateFirstA s1.deliveries id (applySet newStatus now) }
    if modified > 0 then (s2, get_delivery s2 id) else (s2, none)

/-- Model of `MessageHandler.handle_payment_successful`: look the delivery up by order
id and, when found, update its status to `"confirmed"`. -/
def handle_payment_successful (s : State) (order_id : String) (now : Nat) : State :=
  match get_delivery_by_order s order_id with
  | some p => (update_delivery s p.1 (some "confirmed") now false).1
  | none => s

/-- Model of `MessageHandler.handle_order_cancelled`: look the delivery up by order id
and, when found, update its status to `"cancelled"` (the outbound publish has
no effect on the two collections). -/
def handle_order_cancelled (s : State) (order_id : String) (now : Nat) : State :=
  match get_delivery_by_order s order_id with
  | some p => (update_delivery s p.1 (some "cancelled") now false).1
  | none => s

/-- Model of `DeliveryService.update_driver_status`: `$set` the status and
`updated_at`, reporting `modified_count > 0`. -/
def update_driver_status (s : State) (driver_id : Nat) (status : String) (now : Nat) :
    State × Bool :=
  let f : DriverDoc → DriverDoc := fun dr => { dr with status := status, updated_at := now }
  ({ s with drivers := updateFirstA s.drivers driver_id f },
   decide (modified_count s.drivers driver_id f > 0))

/-- Round half-to-even at integer precision, the rounding mode of Python's
builtin `round`. -/
def pyRound (q : ℚ) : ℤ :=
  let f : ℤ := ⌊q⌋
  let r : ℚ := q - f
  if r < 1 / 2 then f
  else if 1 / 2 < r then f + 1
  else if f % 2 = 0 then f else f + 1

/-- Model of Python's `round(x, 2)` over exact rationals. -/
def pyRound2 (q : ℚ) : ℚ :=
  (pyRound (q * 100) : ℚ) / 100

/-- The record returned by `get_delivery_statistics`. -/
structure Stats where
  total_deliveries : Nat
  completed_deliveries : Nat
  pending_deliveries : Nat
  active_drivers : Nat
  available_drivers : Nat
  average_delivery_time_minutes : ℚ
  completion_rate : ℚ
deriving DecidableEq, Repr

/-- The aggregation pipeline of `get_delivery_statistics`: `$match` deliveries
with status `delivered` and an existing `actual_delivery_time`, `$project`
`(actual_delivery_time - created_at) / 60000` (minutes), `$group` with
`$avg`; an empty match yields no group, and the source then uses `0`. -/
def avg_delivery_time (docs : List (Nat × DeliveryDoc)) : ℚ :=
  let matched := docs.filter fun p =>
    p.2.status == "delivered" && p.2.actual_delivery_time.isSome
  let minutes : List ℚ := matched.map fun p =>
    (((p.2.actual_delivery_time.getD 0 : ℚ) - (p.2.created_at : ℚ)) / 60000)
  if minutes.length = 0 then 0 else minutes.sum / (minutes.length : ℚ)

/-- Model of `DeliveryService.get_delivery_statistics`: the five
`count_documents` queries, the average-delivery-time pipeline, and the
completion rate `delivered / total * 100` guarded by `total > 0`; both
rational results pass through `round(_, 2)`. -/
def get_delivery_statistics (s : State) : Stats :=
  let total := s.deliveries.length
  let completed := (s.deliveries.filter fun p => p.2.status == "delivered").length
  let pending := (s.deliveries.filter fun p =>
    !(p.2.status == "delivered" || p.2.status == "cancelled")).length
  let active := (s.drivers.filter fun p => p.2.status == "busy").length
  let available := (s.drivers.filter fun p =>
    p.2.status == "available" && p.2.is_online).length
  { total_deliveries := total
    completed_deliveries := completed
    pending_deliveries := pending
    active_drivers := active
    available_drivers := available
    average_delivery_time_minutes := pyRound2 (avg_delivery_time s.deliveries)
    completion_rate :=
      if total > 0 then pyRound2 ((completed : ℚ) / (total : ℚ) * 100) else 0 }

end App

/-! ### FastAPI variant: `src/main.py` -/

namespace Main

/-- The fields of a `drivers` document used by this variant: last known
coordinates and the boolean availability flag (name, phone, vehicle type and
rating are inert). -/
structure DriverDoc where
  current_location : ℚ × ℚ
  is_available : Bool
deriving DecidableEq, Repr

/-- A document of the `deliveries` collection (the `Delivery` pydantic model):
addresses are reduced to their coordinate pairs, `tracking_number` is inert
and omitted. `estimated_delivery_time` is an integer millisecond timestamp
(`calculate_eta` adds a whole number of minutes to `now`). -/
structure DeliveryDoc where
  order_id : String
  driver_id : Option Nat
  pickup : ℚ × ℚ
  dropoff : ℚ × ℚ
  status : String
  estimated_delivery_time : Option ℤ
  actual_pickup_time : Option Nat
  actual_delivery_time : Option Nat
  created_at : Nat
  updated_at : Nat
deriving DecidableEq, Repr

/-- The two collections of this variant. -/
structure State where
  deliveries : List (Nat × DeliveryDoc)
  drivers : List (Nat × DriverDoc)
deriving DecidableEq, Repr

/-- Squared Euclidean distance between two coordinate pairs, the radicand of
the source's `((lat1 - lat2) ** 2 + (lon1 - lon2) ** 2) ** 0.5`. -/
def dist2 (a b : ℚ × ℚ) : ℚ :=
  (a.1 - b.1) ^ 2 + (a.2 - b.2) ^ 2

/-- Euclidean distance (the value the source actually computes with
`** 0.5`). -/
noncomputable def euclid (a b : ℚ × ℚ) : ℝ :=
  Real.sqrt ((dist2 a b : ℚ) : ℝ)

/-- One step of the source's running-minimum loop: `min_distance` starts at
`inf`, so the first candidate always replaces the empty accumulator; a later
candidate replaces the current best only on strictly smaller distance. -/
def selectStep {α : Type} (f : α → ℚ) (acc : Option α) (p : α) : Option α :=
  match acc with
  | none => some p
  | some q => if f p < f q then some p else some q

/-- The running-minimum loop of `find_nearest_driver` as a left fold. -/
def selectMin {α : Type} (f : α → ℚ) (l : List α) : Option α :=
  l.foldl (selectStep f) none

/-- Model of `find_nearest_driver`: fetch at most 100 available drivers
(`to_list(length=100)` in store order), then take the running minimum of the
Euclidean distance to the pickup point.  The source compares the square
roots `dist ** 0.5`; since `Real.sqrt` is strictly monotone on nonnegative
reals, the comparison is performed here on the squared distances, which
selects the same candidate. -/
def find_nearest_driver (drivers : List (Nat × DriverDoc)) (pickup : ℚ × ℚ) :
    Option Nat :=
  let candidates := (drivers.filter fun p => p.2.is_available).take 100
  (selectMin (fun p => dist2 pickup p.2.current_location) candidates).map Prod.fst

/-- Model of `calculate_eta`: `base_time = 20` minutes plus
`int(distance * 100)` minutes (truncation of a nonnegative float is the
floor), added to `now`; the result is in milliseconds. -/
noncomputable def calculate_eta (pickup delivery_location : ℚ × ℚ) (now : Nat) : ℤ :=
  let base_time : ℤ := 20
  let additional_time : ℤ := ⌊(100 : ℝ) * euclid delivery_location pickup⌋
  (now : ℤ) + (base_time + additional_time) * 60000

/-- The request body of `POST /deliveries` (client-supplied `status` defaults
to `"pending"` in the pydantic model). -/
structure CreateInput where
  order_id : String
  pickup : ℚ × ℚ
  dropoff : ℚ × ℚ
  status : String
deriving DecidableEq, Repr

/-- Model of the `create_delivery` endpoint: try `find_nearest_driver`; when
matched, set `driver_id`, status `assigned` and
`estimated_delivery_time = calculate_eta(pickup, dropoff)` and mark the
driver unavailable; insert the document either way.  (The WebSocket
notification touches neither collection.) -/
noncomputable def create_delivery (s : State) (newId : Nat) (inp : CreateInput)
    (now : Nat) : State × DeliveryDoc :=
  let base : DeliveryDoc :=
    { order_id := inp.order_id
      driver_id := none
      pickup := inp.pickup
      dropoff := inp.dropoff
      status := inp.status
      estimated_delivery_time := none
      actual_pickup_time := none
      actual_delivery_time := none
      created_at := now
      updated_at := now }
  match find_nearest_driver s.drivers inp.pickup with
  | some did =>
      let delivery :=
        { base with
          driver_id := some did
          status := "assigned"
          estimated_delivery_time := some (calculate_eta inp.pickup inp.dropoff now) }
      ({ deliveries := s.deliveries ++ [(newId, delivery)]
         drivers := updateFirstA s.drivers did fun dr => { dr with is_available := false } },
       delivery)
  | none =>
      ({ s with deliveries := s.deliveries ++ [(newId, base)] }, base)

/-- The `$set` document built by the `update_delivery_status` endpoint:
status and `updated_at` always; `actual_pickup_time` on `picked_up`;
`actual_delivery_time` on `delivered`. -/
def statusSet (newStatus : String) (now : Nat) (d : DeliveryDoc) : DeliveryDoc :=
  let d1 := { d with status := newStatus, updated_at := now }
  let d2 :=
    if newStatus = "picked_up" then { d1 with actual_pickup_time := some now } else d1
  if newStatus = "delivered" then { d2 with actual_delivery_time := some now } else d2

/-- Model of the `update_delivery_status` endpoint: when the new status is
`delivered`, first look the delivery up and mark its driver available again;
then `update_one` the `$set` document; a `matched_count` of zero is the 404
path (`none`); otherwise the re-fetched delivery is returned. -/
def update_delivery_status (s : State) (id : Nat) (newStatus : String) (now : Nat) :
    State × Option DeliveryDoc :=
  let s1 :=
    if newStatus = "delivered" then
      match lookupA s.deliveries id with
      | some d =>
          match d.driver_id with
          | some did =>
              { s with
                drivers := updateFirstA s.drivers did fun dr =>
                  { dr with is_available := true } }
          | none => s
      | none => s
    else s
  if matched_count s1.deliveries id = 0 then (s1, none)
  else
    let dels := updateFirstA s1.deliveries id (statusSet newStatus now)
    ({ s1 with deliveries := dels }, lookupA dels id)

/-- The state of `ConnectionManager`: the global connection list and the
per-delivery subscriber lists (a Python dict keyed by delivery id, in
insertion order). Connections are identified by numbers. -/
structure ConnState where
  active_connections : List Nat
  delivery_subscribers : List (String × List Nat)
deriving DecidableEq, Repr

/-- Model of `ConnectionManager.connect`: append to the global list, then to
the subscriber list of the given delivery id (creating it if absent). -/
def ConnectionManager.connect (st : ConnState) (ws : Nat) (delivery_id : Option String) :
    ConnState :=
  let st1 := { st with active_connections := st.active_connections ++ [ws] }
  match delivery_id with
  | some d =>
      match lookupA st1.delivery_subscribers d with
      | some _ =>
          { st1 with
            delivery_subscribers := updateFirstA st1.delivery_subscribers d fun l => l ++ [ws] }
      | none =>
          { st1 with delivery_subscribers := st1.delivery_subscribers ++ [(d, [ws])] }
  | none => st1

/-- Model of `ConnectionManager.disconnect`: remove the first occurrence of
the connection from the global list and from the delivery's subscriber list,
each guarded by a membership test; empty subscriber lists are kept. -/
def ConnectionManager.disconnect (st : ConnState) (ws : Nat) (delivery_id : Option String) :
    ConnState :=
  let st1 :=
    if ws ∈ st.active_connections then
      { st with active_connections := st.active_connections.erase ws }
    else st
  match delivery_id with
  | some d =>
      match lookupA st1.delivery_subscribers d with
      | some conns =>
          if ws ∈ conns then
            { st1 with
              delivery_subscribers := updateFirstA st1.delivery_subscribers d fun l => l.erase ws }
          else st1
      | none => st1
  | none => st1

/-- The iteration of `send_delivery_update` over a delivery's subscribers.
`fails c = true` means `connection.send_text` raises for `c`; the `except`
branch then runs `await self.disconnect(connection, delivery_id)` — but
`disconnect` is a plain synchronous method returning `None`, and awaiting
`None` raises `TypeError`, which nothing catches, so the loop aborts right
after the failed connection has been removed.  The result is the final
manager state, the connections that received the message, and whether the
call escaped with the `TypeError`. -/
def send_loop (delivery_id : String) (fails : Nat → Bool) :
    ConnState → List Nat → List Nat → ConnState × List Nat × Bool
  | st, [], delivered => (st, delivered, false)
  | st, c :: rest, delivered =>
      if fails c then (ConnectionManager.disconnect st c (some delivery_id), delivered, true)
      else send_loop delivery_id fails st rest (delivered ++ [c])

/-- Model of `ConnectionManager.send_delivery_update`: nothing is sent when
the delivery id has no subscriber entry; otherwise the subscriber list is
walked by `send_loop`. -/
def ConnectionManager.send_delivery_update (st : ConnState) (delivery_id : String)
    (fails : Nat → Bool) : ConnState × List Nat × Bool :=
  match lookupA st.delivery_subscribers delivery_id with
  | none => (st, [], false)
  | some conns => send_loop delivery_id fails st conns []

end Main

/-! ### Claim theorems -/

/-! #### Store lemmas -/

theorem lookupA_updateFirstA_self {κ α : Type} [DecidableEq κ]
    (l : List (κ × α)) (k : κ) (f : α → α) :
    lookupA (updateFirstA l k f) k = (lookupA l k).map f := by
  induction l with
  | nil => rfl
  | cons p t ih =>
    obtain ⟨k', v⟩ := p
    by_cases h : k' = k
    · simp [updateFirstA, lookupA, h]
    · simp [updateFirstA, lookupA, h, ih]

theorem lookupA_updateFirstA_ne {κ α : Type} [DecidableEq κ]
    (l : List (κ × α)) (k k' : κ) (f : α → α) (hne : k' ≠ k) :
    lookupA (updateFirstA l k f) k' = lookupA l k' := by
  induction l with
  | nil => rfl
  | cons p t ih =>
    obtain ⟨k₀, v⟩ := p
    by_cases h : k₀ = k
    · subst h
      simp [updateFirstA, lookupA, Ne.symm hne]
    · by_cases h' : k₀ = k'
      · subst h'
        simp [updateFirstA, lookupA, h]
      · simp [updateFirstA, lookupA, h, h', ih]

theorem updateFirstA_of_fix {κ α : Type} [DecidableEq κ]
    (l : List (κ × α)) (k : κ) (f : α → α)
    (h : ∀ v, lookupA l k = some v → f v = v) :
    updateFirstA l k f = l := by
  induction l with
  | nil => rfl
  | cons p t ih
  =>
    obtain ⟨k', v⟩ := p
    by_cases hk : k' = k
    · have := h v (by simp [lookupA, hk])
      simp [updateFirstA, hk, this]
    · simp only [updateFirstA, hk, if_false, List.cons.injEq, true_and]
      exact ih fun v hv => h v (by simpa [lookupA, hk] using hv)

theorem updateFirstA_of_none {κ α : Type} [DecidableEq κ]
    (l : List (κ × α)) (k : κ) (f : α → α) (h : lookupA l k = none) :
    updateFirstA l k f = l := by
  induction l with
  | nil => rfl
  | cons p t ih =>
    obtain ⟨k', v⟩ := p
    by_cases hk : k' = k
    · simp [lookupA, hk] at h
    · simp only [lookupA, hk, if_false] at h
      simp [updateFirstA, hk, ih h]

theorem lookupA_append_fresh {κ α : Type} [DecidableEq κ]
    (l : List (κ × α)) (k : κ) (v : α) (h : lookupA l k = none) :
    lookupA (l ++ [(k, v)]) k = some v := by
  induction l with
  | nil => simp [lookupA]
  | cons p t ih =>
    obtain ⟨k', w⟩ := p
    by_cases hk : k' = k
    · simp [lookupA, hk] at h
    · simp only [lookupA, hk, if_false] at h
      simp [lookupA, hk, ih h]

theorem updateFirstA_append_fresh {κ α : Type} [DecidableEq κ]
    (l : List (κ × α)) (k : κ) (v : α) (f : α → α) (h : lookupA l k = none) :
    updateFirstA (l ++ [(k, v)]) k f = l ++ [(k, f v)] := by
  induction l with
  | nil => simp [updateFirstA]
  | cons p t ih =>
    obtain ⟨k', w⟩ := p
    by_cases hk : k' = k
    · simp [lookupA, hk] at h
    · simp only [lookupA, hk, if_false] at h
      simp [updateFirstA, hk, ih h]

theorem updateFirstA_comp {κ α : Type} [DecidableEq κ]
    (l : List (κ × α)) (k : κ) (f g : α → α) :
    updateFirstA (updateFirstA l k f) k g = updateFirstA l k (fun v => g (f v)) := by
  induction l with
  | nil => rfl
  | cons p t ih =>
    obtain ⟨k', v⟩ := p
    by_cases h : k' = k
    · simp [updateFirstA, h]
    · simp [updateFirstA, h, ih]

/-! #### Unfolding lemmas for `handle_status_change` at the statuses the
claims are about -/

theorem App.hsc_delivered (s : App.State) (id : Nat) (now : Nat)
    (d : App.DeliveryDoc) (did : Nat)
    (hd : lookupA s.deliveries id = some d) (hdid : d.driver_id = some did) :
    App.handle_status_change s id "delivered" now =
      { deliveries := updateFirstA s.deliveries id fun v =>
          { v with
            tracking_history := v.tracking_history ++
              [⟨"delivered", "Order delivered successfully", now⟩],
            actual_delivery_time := some now }
        drivers := updateFirstA s.drivers did fun dr =>
          { dr with status := "available", current_delivery_id := none } } := by
  simp [App.handle_status_change, App.add_tracking_event, App.get_delivery,
    App.status_message, lookupA_updateFirstA_self, hd, hdid, updateFirstA_comp]

theorem App.hsc_cancelled (s : App.State) (id : Nat) (now : Nat)
    (d : App.DeliveryDoc) (did : Nat)
    (hd : lookupA s.deliveries id = some d) (hdid : d.driver_id = some did) :
    App.handle_status_change s id "cancelled" now =
      { deliveries := updateFirstA s.deliveries id fun v =>
          { v with
            tracking_history := v.tracking_history ++
              [⟨"cancelled", "Delivery cancelled", now⟩] }
        drivers := updateFirstA s.drivers did fun dr =>
          { dr with status := "available", current_delivery_id := none } } := by
  simp [App.handle_status_change, App.add_tracking_event, App.get_delivery,
    App.status_message, lookupA_updateFirstA_self, hd, hdid]

theorem App.hsc_lookup_none (s : App.State) (id : Nat) (st : String) (now : Nat)
    (h : lookupA s.deliveries id = none) :
    lookupA (App.handle_status_change s id st now).deliveries id = none := by
  have h1 : ∀ f : App.DeliveryDoc → App.DeliveryDoc,
      lookupA (updateFirstA s.deliveries id f) id = none := fun f => by
    rw [lookupA_updateFirstA_self, h]
    rfl
  simp only [App.handle_status_change, App.add_tracking_event, App.get_delivery, h1,
    updateFirstA_comp, ite_self]
  split
  · exact h1 _
  · exact h1 _

theorem App.preUpdateState_lookup_none (s : App.State) (id : Nat) (upd : Option String)
    (now : Nat) (h : lookupA s.deliveries id = none) :
    lookupA (App.preUpdateState s id upd now).deliveries id = none := by
  cases upd with
  | none => exact h
  | some st => exact App.hsc_lookup_none s id st now h

theorem App.hsc_failed (s : App.State) (id : Nat) (now : Nat) :
    App.handle_status_change s id "failed" now =
      { s with
        deliveries := updateFirstA s.deliveries id fun v =>
          { v with
            tracking_history := v.tracking_history ++
              [⟨"failed", "Status updated to failed", now⟩] } } := rfl

/-- C1: the claim says every reachable status lies in
`{pending, assigned, picked_up, on_the_way, delivered, cancelled, failed}`
and that every transition request on a delivery whose status is terminal is
rejected (IllegalTransition) with the status left unchanged.  The code
validates nothing: updating a `delivered` delivery to `picked_up` succeeds
and changes the stored status, and the payment-successful handler drives an
existing delivery to the status `"confirmed"`, which lies outside the claimed
status set. -/
theorem C1_terminal_states_not_enforced :
    (App.update_delivery
        ⟨[(1, ⟨"o1", "c1", "r1", "p", "d", none, none, "delivered",
               none, none, none, none, [], 0, 0⟩)], []⟩
        1 (some "picked_up") 5 false).2.map App.DeliveryDoc.status
      = some "picked_up"
    ∧ (App.get_delivery
        (App.handle_payment_successful
          ⟨[(2, ⟨"o2", "c1", "r1", "p", "d", none, none, "pending",
                 none, none, none, none, [], 0, 0⟩)], []⟩
          "o2" 9)
        2).map App.DeliveryDoc.status = some "confirmed"
    ∧ "confirmed" ∉ ["pending", "assigned", "picked_up", "on_the_way",
                     "delivered", "cancelled", "failed"] := by
  decide

/-- C3: the claim says the side effects of a status update (tracking append,
driver release, timestamp stamping) take effect if and only if the ledger's
status write succeeds.  In the code the side effects run before the final
`update_one`; when that write raises, the caller gets `None` while the driver
has already been released, the tracking entry appended and
`actual_delivery_time` stamped — and the status itself is left at its old
value. -/
theorem C3_side_effects_survive_failed_write :
    (App.update_delivery
        ⟨[(1, ⟨"o1", "c1", "r1", "p", "d", none, none, "in_transit",
               some 2, none, none, none, [], 0, 0⟩)],
         [(2, ⟨"busy", true, some 1, 0⟩)]⟩
        1 (some "delivered") 7 true)
      = (⟨[(1, ⟨"o1", "c1", "r1", "p", "d", none, none, "in_transit",
              some 2, none, some 7, none,
              [⟨"delivered", "Order delivered successfully", 7⟩], 0, 0⟩)],
          [(2, ⟨"available", true, none, 0⟩)]⟩,
         none) := by
  decide

/-- C7: the claim says a broadcast reaches every subscriber of the delivery,
that subscribers of other deliveries receive nothing, and that a send failure
on one connection removes it without preventing delivery to the remaining
subscribers.  The first two parts hold, but on a send failure the code runs
`await` on the synchronous `disconnect`, which raises `TypeError` and aborts
the loop: with subscribers `[1, 2]` of delivery `X` and a failing send to
`1`, connection `1` is removed, the call escapes with the error, and the
still-subscribed connection `2` never receives the update. -/
theorem C7_send_failure_aborts_broadcast :
    Main.ConnectionManager.send_delivery_update
        ⟨[1, 2], [("X", [1, 2])]⟩ "X" (fun _ => false)
      = (⟨[1, 2], [("X", [1, 2])]⟩, [1, 2], false)
    ∧ Main.ConnectionManager.send_delivery_update
        ⟨[1], [("X", [1])]⟩ "Y" (fun _ => false)
      = (⟨[1], [("X", [1])]⟩, [], false)
    ∧ Main.ConnectionManager.send_delivery_update
        ⟨[1, 2], [("X", [1, 2])]⟩ "X" (fun c => c == 1)
      = (⟨[2], [("X", [2])]⟩, [], true) := by
  decide

/-- C8 (counterexample): the claim says re-applying the same terminal
transition a second time leaves the entire state — including the tracking
history — unchanged.  Applying `delivered` twice to the same delivery (even
at the same clock value) appends a second `"delivered"` tracking entry, so
the state after the second application differs from the state after the
first. -/
theorem C8_reapplied_terminal_changes_state :
    (App.update_delivery
        (App.update_delivery
          ⟨[(1, ⟨"o1", "c1", "r1", "p", "d", none, none, "assigned",
                 some 2, none, none, none, [], 0, 0⟩)],
           [(2, ⟨"busy", true, some 1, 0⟩)]⟩
          1 (some "delivered") 5 false).1
        1 (some "delivered") 5 false).1
      ≠ (App.update_delivery
          ⟨[(1, ⟨"o1", "c1", "r1", "p", "d", none, none, "assigned",
                 some 2, none, none, none, [], 0, 0⟩)],
           [(2, ⟨"busy", true, some 1, 0⟩)]⟩
          1 (some "delivered") 5 false).1 := by
  decide

/-- C8 (amended): releasing an already-available driver is a no-op (the
registry write changes no field, so the drivers collection is unchanged),
and hence re-applying the same terminal transition never double-releases;
but the delivery record is not left unchanged: each re-application appends
another tracking-history entry and re-stamps `actual_delivery_time`. -/
theorem C8_amended_release_idempotent_but_history_grows
    (s : App.State) (id did : Nat) (d : App.DeliveryDoc) (dr : App.DriverDoc)
    (now : Nat)
    (hd : lookupA s.deliveries id = some d)
    (hdid : d.driver_id = some did)
    (hdr : lookupA s.drivers did = some dr)
    (havail : dr.status = "available")
    (hcur : dr.current_delivery_id = none) :
    (App.handle_status_change s id "delivered" now).drivers = s.drivers
    ∧ App.get_delivery (App.handle_status_change s id "delivered" now) id
        = some { d with
            tracking_history := d.tracking_history ++
              [⟨"delivered", "Order delivered successfully", now⟩],
            actual_delivery_time := some now } := by
  rw [App.hsc_delivered s id now d did hd hdid]
  constructor
  · apply updateFirstA_of_fix
    intro v hv
    rw [hdr] at hv
    cases hv
    obtain ⟨st, onl, cur, upd⟩ := dr
    have hst : st = "available" := havail
    have hcu : cur = none := hcur
    subst hst
    subst hcu
    rfl
  · simp [App.get_delivery, lookupA_updateFirstA_self, hd]

theorem C8_amended_release_idempotent_but_history_grows_witness :
    (App.handle_status_change
        ⟨[(1, ⟨"o1", "c1", "r1", "p", "d", none, none, "delivered",
               some 2, none, some 5, none,
               [⟨"delivered", "Order delivered successfully", 5⟩], 0, 5⟩)],
         [(2, ⟨"available", true, none, 0⟩)]⟩ 1 "delivered" 6).drivers
      = [(2, ⟨"available", true, none, 0⟩)]
    ∧ App.get_delivery
        (App.handle_status_change
          ⟨[(1, ⟨"o1", "c1", "r1", "p", "d", none, none, "delivered",
                 some 2, none, some 5, none,
                 [⟨"delivered", "Order delivered successfully", 5⟩], 0, 5⟩)],
           [(2, ⟨"available", true, none, 0⟩)]⟩ 1 "delivered" 6) 1
      = some ⟨"o1", "c1", "r1", "p", "d", none, none, "delivered",
              some 2, none, some 6, none,
              [⟨"delivered", "Order delivered successfully", 5⟩,
               ⟨"delivered", "Order delivered successfully", 6⟩], 0, 5⟩ :=
  C8_amended_release_idempotent_but_history_grows
    ⟨[(1, ⟨"o1", "c1", "r1", "p", "d", none, none, "delivered",
           some 2, none, some 5, none,
           [⟨"delivered", "Order delivered successfully", 5⟩], 0, 5⟩)],
     [(2, ⟨"available", true, none, 0⟩)]⟩ 1 2
    ⟨"o1", "c1", "r1", "p", "d", none, none, "delivered",
     some 2, none, some 5, none,
     [⟨"delivered", "Order delivered successfully", 5⟩], 0, 5⟩
    ⟨"available", true, none, 0⟩ 6
    (by decide) (by decide) (by decide) (by decide) (by decide)

/-- C2 (counterexample): the claim says transitioning to `delivered`,
`cancelled` or `failed` releases the assigned driver.  Transitioning to
`failed` releases nothing in the service layer (the driver stays `busy`
with its delivery reference), the endpoint variant releases nothing on
`cancelled` (the driver stays unavailable), and the service layer stamps no
pickup time on `picked_up` (the resulting state changes only the status,
`updated_at` and the tracking history — its document has no
`actual_pickup_time` at all). -/
theorem C2_failed_and_cancelled_do_not_release :
    ((App.update_delivery
        ⟨[(1, ⟨"o1", "c1", "r1", "p", "d", none, none, "in_transit",
               some 2, none, none, none, [], 0, 0⟩)],
         [(2, ⟨"busy", true, some 1, 0⟩)]⟩
        1 (some "failed") 7 false).1).drivers
      = [(2, ⟨"busy", true, some 1, 0⟩)]
    ∧ ((Main.update_delivery_status
        ⟨[(3, ⟨"o3", some 4, (0, 0), (0, 0), "in_transit",
               none, none, none, 0, 0⟩)],
         [(4, ⟨(0, 0), false⟩)]⟩
        3 "cancelled" 7).1).drivers
      = [(4, ⟨(0, 0), false⟩)]
    ∧ (App.update_delivery
        ⟨[(1, ⟨"o1", "c1", "r1", "p", "d", none, none, "assigned",
               some 2, none, none, none, [], 0, 0⟩)],
         [(2, ⟨"busy", true, some 1, 0⟩)]⟩
        1 (some "picked_up") 7 false).1
      = ⟨[(1, ⟨"o1", "c1", "r1", "p", "d", none, none, "picked_up",
             some 2, none, none, none,
             [⟨"picked_up", "Order picked up from restaurant", 7⟩], 0, 7⟩)],
         [(2, ⟨"busy", true, some 1, 0⟩)]⟩ := by
  decide

/-- C2 (amended): in the service layer, transitioning to `delivered` or
`cancelled` releases the assigned driver (status `available`, delivery
reference cleared) and `delivered` additionally stamps
`actual_delivery_time = now`, while `failed` carries no registry side
effect; in the endpoint variant, `picked_up` stamps
`actual_pickup_time = now`, `delivered` stamps `actual_delivery_time = now`
and releases the driver, and `cancelled` (like `failed`) leaves the driver
registry untouched. -/
theorem C2_amended_per_status_side_effects
    (sA : App.State) (id did : Nat) (d : App.DeliveryDoc) (dr : App.DriverDoc)
    (sM : Main.State) (idM didM : Nat) (dM : Main.DeliveryDoc) (drM : Main.DriverDoc)
    (now : Nat)
    (hd : lookupA sA.deliveries id = some d)
    (hdid : d.driver_id = some did)
    (hdr : lookupA sA.drivers did = some dr)
    (hdM : lookupA sM.deliveries idM = some dM)
    (hdidM : dM.driver_id = some didM)
    (hdrM : lookupA sM.drivers didM = some drM) :
    lookupA (App.handle_status_change sA id "delivered" now).drivers did
        = some { dr with status := "available", current_delivery_id := none }
    ∧ App.get_delivery (App.handle_status_change sA id "delivered" now) id
        = some { d with
            tracking_history := d.tracking_history ++
              [⟨"delivered", "Order delivered successfully", now⟩],
            actual_delivery_time := some now }
    ∧ lookupA (App.handle_status_change sA id "cancelled" now).drivers did
        = some { dr with status := "available", current_delivery_id := none }
    ∧ App.get_delivery (App.handle_status_change sA id "cancelled" now) id
        = some { d with
            tracking_history := d.tracking_history ++
              [⟨"cancelled", "Delivery cancelled", now⟩] }
    ∧ (App.handle_status_change sA id "failed" now).drivers = sA.drivers
    ∧ (Main.update_delivery_status sM idM "picked_up" now).1.drivers = sM.drivers
    ∧ ((Main.update_delivery_status sM idM "picked_up" now).2).map
        Main.DeliveryDoc.actual_pickup_time = some (some now)
    ∧ lookupA (Main.update_delivery_status sM idM "delivered" now).1.drivers didM
        = some { drM with is_available := true }
    ∧ ((Main.update_delivery_status sM idM "delivered" now).2).map
        Main.DeliveryDoc.actual_delivery_time = some (some now)
    ∧ (Main.update_delivery_status sM idM "cancelled" now).1.drivers = sM.drivers := by
  refine ⟨?_, ?_, ?_, ?_, ?_, ?_, ?_, ?_, ?_, ?_⟩
  · rw [App.hsc_delivered sA id now d did hd hdid]
    simp [lookupA_updateFirstA_self, hdr]
  · rw [App.hsc_delivered sA id now d did hd hdid]
    simp [App.get_delivery, lookupA_updateFirstA_self, hd]
  · rw [App.hsc_cancelled sA id now d did hd hdid]
    simp [lookupA_updateFirstA_self, hdr]
  · rw [App.hsc_cancelled sA id now d did hd hdid]
    simp [App.get_delivery, lookupA_updateFirstA_self, hd]
  · rw [App.hsc_failed]
  · simp [Main.update_delivery_status, matched_count, hdM]
  · simp [Main.update_delivery_status, Main.statusSet, matched_count, hdM,
      lookupA_updateFirstA_self]
  · simp [Main.update_delivery_status, Main.statusSet, matched_count, hdM, hdidM,
      lookupA_updateFirstA_self, hdrM]
  · simp [Main.update_delivery_status, Main.statusSet, matched_count, hdM, hdidM,
      lookupA_updateFirstA_self]
  · simp [Main.update_delivery_status, matched_count, hdM]

theorem C2_amended_per_status_side_effects_witness :
    lookupA (App.handle_status_change
        ⟨[(1, ⟨"o1", "c1", "r1", "p", "d", none, none, "assigned",
               some 2, none, none, none, [], 0, 0⟩)],
         [(2, ⟨"busy", true, some 1, 0⟩)]⟩ 1 "delivered" 9).drivers 2
        = some ⟨"available", true, none, 0⟩
    ∧ App.get_delivery (App.handle_status_change
        ⟨[(1, ⟨"o1", "c1", "r1", "p", "d", none, none, "assigned",
               some 2, none, none, none, [], 0, 0⟩)],
         [(2, ⟨"busy", true, some 1, 0⟩)]⟩ 1 "delivered" 9) 1
        = some ⟨"o1", "c1", "r1", "p", "d", none, none, "assigned",
                some 2, none, some 9, none,
                [⟨"delivered", "Order delivered successfully", 9⟩], 0, 0⟩
    ∧ lookupA (App.handle_status_change
        ⟨[(1, ⟨"o1", "c1", "r1", "p", "d", none, none, "assigned",
               some 2, none, none, none, [], 0, 0⟩)],
         [(2, ⟨"busy", true, some 1, 0⟩)]⟩ 1 "cancelled" 9).drivers 2
        = some ⟨"available", true, none, 0⟩
    ∧ App.get_delivery (App.handle_status_change
        ⟨[(1, ⟨"o1", "c1", "r1", "p", "d", none, none, "assigned",
               some 2, none, none, none, [], 0, 0⟩)],
         [(2, ⟨"busy", true, some 1, 0⟩)]⟩ 1 "cancelled" 9) 1
        = some ⟨"o1", "c1", "r1", "p", "d", none, none, "assigned",
                some 2, none, none, none,
                [⟨"cancelled", "Delivery cancelled", 9⟩], 0, 0⟩
    ∧ (App.handle_status_change
        ⟨[(1, ⟨"o1", "c1", "r1", "p", "d", none, none, "assigned",
               some 2, none, none, none, [], 0, 0⟩)],
         [(2, ⟨"busy", true, some 1, 0⟩)]⟩ 1 "failed" 9).drivers
        = [(2, ⟨"busy", true, some 1, 0⟩)]
    ∧ (Main.update_delivery_status
        ⟨[(3, ⟨"o3", some 4, (0, 0), (0, 0), "assigned",
               none, none, none, 0, 0⟩)], [(4, ⟨(0, 0), false⟩)]⟩
        3 "picked_up" 9).1.drivers = [(4, ⟨(0, 0), false⟩)]
    ∧ ((Main.update_delivery_status
        ⟨[(3, ⟨"o3", some 4, (0, 0), (0, 0), "assigned",
               none, none, none, 0, 0⟩)], [(4, ⟨(0, 0), false⟩)]⟩
        3 "picked_up" 9).2).map Main.DeliveryDoc.actual_pickup_time
        = some (some 9)
    ∧ lookupA (Main.update_delivery_status
        ⟨[(3, ⟨"o3", some 4, (0, 0), (0, 0), "assigned",
               none, none, none, 0, 0⟩)], [(4, ⟨(0, 0), false⟩)]⟩
        3 "delivered" 9).1.drivers 4 = some ⟨(0, 0), true⟩
    ∧ ((Main.update_delivery_status
        ⟨[(3, ⟨"o3", some 4, (0, 0), (0, 0), "assigned",
               none, none, none, 0, 0⟩)], [(4, ⟨(0, 0), false⟩)]⟩
        3 "delivered" 9).2).map Main.DeliveryDoc.actual_delivery_time
        = some (some 9)
    ∧ (Main.update_delivery_status
        ⟨[(3, ⟨"o3", some 4, (0, 0), (0, 0), "assigned",
               none, none, none, 0, 0⟩)], [(4, ⟨(0, 0), false⟩)]⟩
        3 "cancelled" 9).1.drivers = [(4, ⟨(0, 0), false⟩)] :=
  C2_amended_per_status_side_effects
    ⟨[(1, ⟨"o1", "c1", "r1", "p", "d", none, none, "assigned",
           some 2, none, none, none, [], 0, 0⟩)],
     [(2, ⟨"busy", true, some 1, 0⟩)]⟩ 1 2
    ⟨"o1", "c1", "r1", "p", "d", none, none, "assigned",
     some 2, none, none, none, [], 0, 0⟩
    ⟨"busy", true, some 1, 0⟩
    ⟨[(3, ⟨"o3", some 4, (0, 0), (0, 0), "assigned",
           none, none, none, 0, 0⟩)], [(4, ⟨(0, 0), false⟩)]⟩ 3 4
    ⟨"o3", some 4, (0, 0), (0, 0), "assigned", none, none, none, 0, 0⟩
    ⟨(0, 0), false⟩ 9
    (by decide) (by decide) (by decide) (by decide) (by decide) (by decide)

/-- C4: a delivery created while no driver is available is still created, in
status `pending` with a null `driver_id`; and whether or not a driver was
matched, the stored document carries exactly one tracking-history entry,
the `"created"` one. -/
theorem C4_create_pending_single_created_entry
    (s : App.State) (newId : Nat) (inp : App.CreateInput) (now : Nat)
    (hfresh : lookupA s.deliveries newId = none) :
    ((App.get_delivery (App.create_delivery s newId inp now).1 newId).map
        App.DeliveryDoc.tracking_history)
      = some [⟨"created", "Delivery created", now⟩]
    ∧ (App.find_available_driver s = none →
        App.get_delivery (App.create_delivery s newId inp now).1 newId
          = some
              { order_id := inp.order_id
                customer_id := inp.customer_id
                restaurant_id := inp.restaurant_id
                pickup_address := inp.pickup_address
                delivery_address := inp.delivery_address
                customer_phone := inp.customer_phone
                delivery_instructions := inp.delivery_instructions
                status := "pending"
                driver_id := none
                estimated_delivery_time := none
                actual_delivery_time := none
                current_location := none
                tracking_history := [⟨"created", "Delivery created", now⟩]
                created_at := now
                updated_at := now }) := by
  have h1 : ∀ (v : App.DeliveryDoc) (f : App.DeliveryDoc → App.DeliveryDoc),
      updateFirstA (s.deliveries ++ [(newId, v)]) newId f = s.deliveries ++ [(newId, f v)] :=
    fun v f => updateFirstA_append_fresh s.deliveries newId v f hfresh
  have h2 : ∀ v : App.DeliveryDoc, lookupA (s.deliveries ++ [(newId, v)]) newId = some v :=
    fun v => lookupA_append_fresh s.deliveries newId v hfresh
  constructor
  · cases h : App.find_available_driver s <;>
      simp [h, App.create_delivery, App.get_delivery, App.add_tracking_event, h1, h2]
  · intro hnone
    simp [hnone, App.create_delivery, App.get_delivery, App.add_tracking_event, h1, h2]

theorem C4_create_pending_single_created_entry_witness :
    ((App.get_delivery
        (App.create_delivery ⟨[], []⟩ 1 ⟨"o", "c", "r", "p", "d", none, none⟩ 3).1 1).map
        App.DeliveryDoc.tracking_history)
      = some [⟨"created", "Delivery created", 3⟩]
    ∧ App.get_delivery
        (App.create_delivery ⟨[], []⟩ 1 ⟨"o", "c", "r", "p", "d", none, none⟩ 3).1 1
      = some ⟨"o", "c", "r", "p", "d", none, none, "pending", none, none, none, none,
              [⟨"created", "Delivery created", 3⟩], 3, 3⟩ :=
  ⟨(C4_create_pending_single_created_entry ⟨[], []⟩ 1 ⟨"o", "c", "r", "p", "d", none, none⟩ 3
      (by decide)).1,
   (C4_create_pending_single_created_entry ⟨[], []⟩ 1 ⟨"o", "c", "r", "p", "d", none, none⟩ 3
      (by decide)).2 (by decide)⟩

/-- C10: the public update operation yields `None` indistinguishably when the
id matches nothing, when the store raises, and when the `$set` changes no
stored field value of an existing delivery (such a no-op update exists); it
returns the re-fetched document exactly when the write modified at least one
field value. -/
theorem C10_update_none_collapses_three_cases
    (s : App.State) (id : Nat) (upd : Option String) (now : Nat) :
    (lookupA s.deliveries id = none → (App.update_delivery s id upd now false).2 = none)
    ∧ (App.update_delivery s id upd now true).2 = none
    ∧ (∀ d', (App.update_delivery s id upd now false).2 = some d' →
        ∃ v, lookupA (App.preUpdateState s id upd now).deliveries id = some v
          ∧ App.applySet upd now v ≠ v
          ∧ d' = App.applySet upd now v)
    ∧ (∀ v, lookupA (App.preUpdateState s id upd now).deliveries id = some v →
        App.applySet upd now v = v → (App.update_delivery s id upd now false).2 = none)
    ∧ (∃ s₀ : App.State, ∃ id₀ : Nat, ∃ upd₀ : Option String, ∃ now₀ : Nat,
        lookupA s₀.deliveries id₀ ≠ none
        ∧ (App.update_delivery s₀ id₀ upd₀ now₀ false).2 = none) := by
  refine ⟨?_, ?_, ?_, ?_, ?_⟩
  · intro h
    have hpre := App.preUpdateState_lookup_none s id upd now h
    simp [App.update_delivery, modified_count, hpre]
  · simp [App.update_delivery]
  · intro d' hres
    simp only [App.update_delivery, Bool.false_eq_true, if_false] at hres
    cases hm : lookupA (App.preUpdateState s id upd now).deliveries id with
    | none =>
        rw [show modified_count (App.preUpdateState s id upd now).deliveries id
              (App.applySet upd now) = 0 by simp [modified_count, hm]] at hres
        simp at hres
    | some v =>
        by_cases hfix : App.applySet upd now v = v
        · rw [show modified_count (App.preUpdateState s id upd now).deliveries id
                (App.applySet upd now) = 0 by simp [modified_count, hm, hfix]] at hres
          simp at hres
        · rw [show modified_count (App.preUpdateState s id upd now).deliveries id
                (App.applySet upd now) = 1 by simp [modified_count, hm, hfix]] at hres
          simp [App.get_delivery, lookupA_updateFirstA_self, hm] at hres
          exact Exists.intro v (And.intro rfl (And.intro hfix hres.symm))
  · intro v hv hfix
    simp [App.update_delivery, modified_count, hv, hfix]
  · refine ⟨⟨[(1, ⟨"o", "c", "r", "p", "d", none, none, "delivered",
                none, none, some 4, none, [], 0, 4⟩)], []⟩,
      1, some "delivered", 4, by decide, by decide⟩

theorem C10_update_none_collapses_three_cases_witness :
    (App.update_delivery ⟨[], []⟩ 1 (some "delivered") 0 false).2 = none
    ∧ (App.update_delivery
        ⟨[(1, ⟨"o", "c", "r", "p", "d", none, none, "delivered",
               none, none, some 4, none, [], 0, 4⟩)], []⟩
        1 (some "delivered") 4 true).2 = none
    ∧ (∃ v, lookupA (App.preUpdateState
          ⟨[(1, ⟨"o", "c", "r", "p", "d", none, none, "pending",
                 none, none, none, none, [], 0, 0⟩)], []⟩
          1 (some "assigned") 2).deliveries 1 = some v
        ∧ App.applySet (some "assigned") 2 v ≠ v
        ∧ (⟨"o", "c", "r", "p", "d", none, none, "assigned",
            none, none, none, none,
            [⟨"assigned", "Driver assigned to delivery", 2⟩], 0, 2⟩ : App.DeliveryDoc)
            = App.applySet (some "assigned") 2 v)
    ∧ (App.update_delivery
        ⟨[(1, ⟨"o", "c", "r", "p", "d", none, none, "delivered",
               none, none, some 4, none, [], 0, 4⟩)], []⟩
        1 (some "delivered") 4 false).2 = none :=
  ⟨(C10_update_none_collapses_three_cases ⟨[], []⟩ 1 (some "delivered") 0).1 (by decide),
   (C10_update_none_collapses_three_cases
      ⟨[(1, ⟨"o", "c", "r", "p", "d", none, none, "delivered",
             none, none, some 4, none, [], 0, 4⟩)], []⟩
      1 (some "delivered") 4).2.1,
   (C10_update_none_collapses_three_cases
      ⟨[(1, ⟨"o", "c", "r", "p", "d", none, none, "pending",
             none, none, none, none, [], 0, 0⟩)], []⟩
      1 (some "assigned") 2).2.2.1
     ⟨"o", "c", "r", "p", "d", none, none, "assigned",
      none, none, none, none,
      [⟨"assigned", "Driver assigned to delivery", 2⟩], 0, 2⟩ (by decide),
   (C10_update_none_collapses_three_cases
      ⟨[(1, ⟨"o", "c", "r", "p", "d", none, none, "delivered",
             none, none, some 4, none, [], 0, 4⟩)], []⟩
      1 (some "delivered") 4).2.2.2.1
     ⟨"o", "c", "r", "p", "d", none, none, "delivered",
      none, none, some 4, none,
      [⟨"delivered", "Order delivered successfully", 4⟩], 0, 4⟩
     (by decide) (by decide)⟩

/-! #### Rounding helper lemmas -/

theorem App.pyRound_eq_floor (q : ℚ) (h : q - (⌊q⌋ : ℚ) < 1 / 2) :
    App.pyRound q = ⌊q⌋ := by
  unfold App.pyRound
  rw [if_pos h]

theorem App.pyRound_intCast (n : ℤ) : App.pyRound ((n : ℚ)) = n := by
  rw [App.pyRound_eq_floor ((n : ℚ)) (by rw [Int.floor_intCast]; norm_num)]
  exact Int.floor_intCast n

/-- C9 (counterexample): the claim says the statistics operation returns
`completion_rate = delivered_count / total_count * 100`.  With 1 delivered
delivery out of 3 the code returns `round(100/3, 2) = 33.33`, not `100/3`:
the rate (like the average duration) passes through `round(_, 2)`. -/
theorem C9_completion_rate_is_rounded :
    (App.get_delivery_statistics
        ⟨[(1, ⟨"o1", "c1", "r1", "p", "d", none, none, "delivered",
               none, none, some 1800000, none, [], 0, 0⟩),
          (2, ⟨"o2", "c1", "r1", "p", "d", none, none, "pending",
               none, none, none, none, [], 0, 0⟩),
          (3, ⟨"o3", "c1", "r1", "p", "d", none, none, "pending",
               none, none, none, none, [], 0, 0⟩)], []⟩).completion_rate
      = 3333 / 100
    ∧ ((3333 : ℚ) / 100) ≠ (1 : ℚ) / 3 * 100 := by
  have hfloor : ⌊(10000 : ℚ) / 3⌋ = 3333 := by
    rw [Int.floor_eq_iff]
    constructor <;> norm_num
  constructor
  · have h3 : (App.get_delivery_statistics
        ⟨[(1, ⟨"o1", "c1", "r1", "p", "d", none, none, "delivered",
               none, none, some 1800000, none, [], 0, 0⟩),
          (2, ⟨"o2", "c1", "r1", "p", "d", none, none, "pending",
               none, none, none, none, [], 0, 0⟩),
          (3, ⟨"o3", "c1", "r1", "p", "d", none, none, "pending",
               none, none, none, none, [], 0, 0⟩)], []⟩).completion_rate
        = App.pyRound2 (((1 : ℕ) : ℚ) / ((3 : ℕ) : ℚ) * 100) := rfl
    rw [h3]
    unfold App.pyRound2
    rw [show ((1 : ℕ) : ℚ) / ((3 : ℕ) : ℚ) * 100 * 100 = (10000 : ℚ) / 3 by norm_num]
    rw [App.pyRound_eq_floor ((10000 : ℚ) / 3) (by rw [hfloor]; norm_num), hfloor]
    norm_num
  · norm_num

/-- C9 (amended): `completion_rate` is `delivered / total * 100` rounded
half-even to two decimals, and `0` (no division performed) when the store
holds no deliveries; `average_delivery_time_minutes` is the mean of
`(actual_delivery_time - created_at) / 60000` over the deliveries whose
status is `delivered` and whose `actual_delivery_time` is present, again
rounded to two decimals, and `0` when that set is empty. -/
theorem C9_amended_statistics_rounded
    (s : App.State) :
    (s.deliveries.length = 0 → (App.get_delivery_statistics s).completion_rate = 0)
    ∧ (0 < s.deliveries.length →
        (App.get_delivery_statistics s).completion_rate
          = App.pyRound2
              (((s.deliveries.countP fun p => p.2.status == "delivered") : ℚ)
                / (s.deliveries.length : ℚ) * 100))
    ∧ ((s.deliveries.filter fun p =>
          p.2.status == "delivered" && p.2.actual_delivery_time.isSome) = [] →
        (App.get_delivery_statistics s).average_delivery_time_minutes = 0)
    ∧ (∀ l, l = s.deliveries.filter (fun p =>
          p.2.status == "delivered" && p.2.actual_delivery_time.isSome) →
        l ≠ [] →
        (App.get_delivery_statistics s).average_delivery_time_minutes
          = App.pyRound2
              ((l.map fun p =>
                  ((p.2.actual_delivery_time.getD 0 : ℚ) - (p.2.created_at : ℚ)) / 60000).sum
                / (l.length : ℚ))) := by
  refine ⟨?_, ?_, ?_, ?_⟩
  · intro h
    simp [App.get_delivery_statistics, h]
  · intro h
    simp [App.get_delivery_statistics, h, Nat.not_eq_zero_of_lt h,
      List.countP_eq_length_filter]
  · intro h
    have hz : App.pyRound (0 : ℚ) = 0 := by
      have := App.pyRound_intCast 0
      simpa using this
    simp [App.get_delivery_statistics, App.avg_delivery_time, h, App.pyRound2, hz]
  · intro l hl hne
    have hlen : l.length ≠ 0 := fun h0 => hne (List.eq_nil_of_length_eq_zero h0)
    simp [App.get_delivery_statistics, App.avg_delivery_time, ← hl, hlen]

theorem C9_amended_statistics_rounded_witness :
    (App.get_delivery_statistics ⟨[], []⟩).completion_rate = 0
    ∧ (App.get_delivery_statistics
        ⟨[(1, ⟨"o1", "c1", "r1", "p", "d", none, none, "delivered",
               none, none, some 1800000, none, [], 0, 0⟩),
          (2, ⟨"o2", "c1", "r1", "p", "d", none, none, "pending",
               none, none, none, none, [], 0, 0⟩)], []⟩).completion_rate = 50
    ∧ (App.get_delivery_statistics ⟨[], []⟩).average_delivery_time_minutes = 0
    ∧ (App.get_delivery_statistics
        ⟨[(1, ⟨"o1", "c1", "r1", "p", "d", none, none, "delivered",
               none, none, some 1800000, none, [], 0, 0⟩),
          (2, ⟨"o2", "c1", "r1", "p", "d", none, none, "pending",
               none, none, none, none, [], 0, 0⟩)], []⟩).average_delivery_time_minutes
      = 30 := by
  refine ⟨(C9_amended_statistics_rounded ⟨[], []⟩).1 (by decide), ?_,
    (C9_amended_statistics_rounded ⟨[], []⟩).2.2.1 (by decide), ?_⟩
  · have h := (C9_amended_statistics_rounded
      ⟨[(1, ⟨"o1", "c1", "r1", "p", "d", none, none, "delivered",
             none, none, some 1800000, none, [], 0, 0⟩),
        (2, ⟨"o2", "c1", "r1", "p", "d", none, none, "pending",
             none, none, none, none, [], 0, 0⟩)], []⟩).2.1 (by decide)
    rw [h]
    rw [show (List.countP (fun p => p.2.status == "delivered")
        [((1 : Nat), (⟨"o1", "c1", "r1", "p", "d", none, none, "delivered",
             none, none, some 1800000, none, [], 0, 0⟩ : App.DeliveryDoc)),
         (2, ⟨"o2", "c1", "r1", "p", "d", none, none, "pending",
             none, none, none, none, [], 0, 0⟩)]) = 1 from rfl]
    rw [show (List.length
        [((1 : Nat), (⟨"o1", "c1", "r1", "p", "d", none, none, "delivered",
             none, none, some 1800000, none, [], 0, 0⟩ : App.DeliveryDoc)),
         (2, ⟨"o2", "c1", "r1", "p", "d", none, none, "pending",
             none, none, none, none, [], 0, 0⟩)]) = 2 from rfl]
    unfold App.pyRound2
    rw [show ((1 : ℕ) : ℚ) / ((2 : ℕ) : ℚ) * 100 * 100 = ((5000 : ℤ) : ℚ) by norm_num]
    rw [App.pyRound_intCast]
    norm_num
  · have h := (C9_amended_statistics_rounded
      ⟨[(1, ⟨"o1", "c1", "r1", "p", "d", none, none, "delivered",
             none, none, some 1800000, none, [], 0, 0⟩),
        (2, ⟨"o2", "c1", "r1", "p", "d", none, none, "pending",
             none, none, none, none, [], 0, 0⟩)], []⟩).2.2.2
      [(1, ⟨"o1", "c1", "r1", "p", "d", none, none, "delivered",
            none, none, some 1800000, none, [], 0, 0⟩)] (by decide) (by decide)
    rw [h]
    rw [show ((List.map (fun p =>
          ((p.2.actual_delivery_time.getD 0 : ℚ) - (p.2.created_at : ℚ)) / 60000)
        [((1 : Nat), (⟨"o1", "c1", "r1", "p", "d", none, none, "delivered",
             none, none, some 1800000, none, [], 0, 0⟩ : App.DeliveryDoc))]).sum
        / ((List.length [((1 : Nat), (⟨"o1", "c1", "r1", "p", "d", none, none, "delivered",
             none, none, some 1800000, none, [], 0, 0⟩ : App.DeliveryDoc))]) : ℚ))
        = ((30 : ℤ) : ℚ) by norm_num [List.sum_cons]]
    unfold App.pyRound2
    rw [show ((30 : ℤ) : ℚ) * 100 = ((3000 : ℤ) : ℚ) by norm_num]
    rw [App.pyRound_intCast]
    norm_num

/-! #### Running-minimum lemmas for `find_nearest_driver` -/

theorem Main.dist2_nonneg (a b : ℚ × ℚ) : 0 ≤ Main.dist2 a b := by
  unfold Main.dist2
  positivity

theorem selectStep_go {α : Type} (f : α → ℚ) (xs : List α) :
    ∀ a : α,
      ∃ c, List.foldl (Main.selectStep f) (some a) xs = some c
        ∧ f c ≤ f a
        ∧ (∀ y ∈ xs, f c ≤ f y)
        ∧ (c = a ∨ ∃ n, ∃ hn : n < xs.length, xs.get ⟨n, hn⟩ = c ∧ f c < f a
            ∧ ∀ m, ∀ hm : m < n, f c < f (xs.get ⟨m, Nat.lt_trans hm hn⟩)) := by
  induction xs with
  | nil =>
    intro a
    exact ⟨a, rfl, le_refl _, by simp, Or.inl rfl⟩
  | cons x xs ih =>
    intro a
    by_cases hx : f x < f a
    · obtain ⟨c, hc, hle, hmin, hpos⟩ := ih x
      refine ⟨c, ?_, le_trans hle (le_of_lt hx), ?_, ?_⟩
      · simpa [Main.selectStep, hx] using hc
      · intro y hy
        rcases List.mem_cons.mp hy with rfl | hy'
        · exact hle
        · exact hmin y hy'
      · rcases hpos with rfl | ⟨n, hn, hget, hlt, hearly⟩
        · refine Or.inr ⟨0, by simp, rfl, hx, ?_⟩
          intro m hm
          exact absurd hm (Nat.not_lt_zero m)
        · refine Or.inr ⟨n + 1, Nat.succ_lt_succ hn, by simpa using hget,
            lt_trans hlt hx, ?_⟩
          intro m hm
          cases m with
          | zero => simpa using hlt
          | succ m' => simpa using hearly m' (Nat.lt_of_succ_lt_succ hm)
    · obtain ⟨c, hc, hle, hmin, hpos⟩ := ih a
      have hax : f a ≤ f x := not_lt.mp hx
      refine ⟨c, ?_, hle, ?_, ?_⟩
      · simpa [Main.selectStep, hx] using hc
      · intro y hy
        rcases List.mem_cons.mp hy with rfl | hy'
        · exact le_trans hle hax
        · exact hmin y hy'
      · rcases hpos with rfl | ⟨n, hn, hget, hlt, hearly⟩
        · exact Or.inl rfl
        · refine Or.inr ⟨n + 1, Nat.succ_lt_succ hn, by simpa using hget, hlt, ?_⟩
          intro m hm
          cases m with
          | zero => simpa using lt_of_lt_of_le hlt hax
          | succ m' => simpa using hearly m' (Nat.lt_of_succ_lt_succ hm)

theorem selectMin_eq_none_iff {α : Type} (f : α → ℚ) (l : List α) :
    Main.selectMin f l = none ↔ l = [] := by
  cases l with
  | nil => simp [Main.selectMin]
  | cons x xs =>
    obtain ⟨c, hc, -, -, -⟩ := selectStep_go f xs x
    simp [Main.selectMin, Main.selectStep, hc]

theorem selectMin_spec {α : Type} (f : α → ℚ) (l : List α) (c : α)
    (h : Main.selectMin f l = some c) :
    ∃ n, ∃ hn : n < l.length, l.get ⟨n, hn⟩ = c
      ∧ (∀ y ∈ l, f c ≤ f y)
      ∧ ∀ m, ∀ hm : m < n, f c < f (l.get ⟨m, Nat.lt_trans hm hn⟩) := by
  cases l with
  | nil => simp [Main.selectMin] at h
  | cons x xs =>
    obtain ⟨c', hc', hle, hmin, hpos⟩ := selectStep_go f xs x
    have hfold : Main.selectMin f (x :: xs) = some c' := by
      simpa [Main.selectMin, Main.selectStep] using hc'
    have hcc : c' = c := Option.some.inj (hfold.symm.trans h)
    subst hcc
    rcases hpos with rfl | ⟨n, hn, hget, hlt, hearly⟩
    · refine ⟨0, by simp, rfl, ?_, ?_⟩
      · intro y hy
        rcases List.mem_cons.mp hy with rfl | hy'
        · exact le_refl _
        · exact hmin y hy'
      · intro m hm
        exact absurd hm (Nat.not_lt_zero m)
    · refine ⟨n + 1, Nat.succ_lt_succ hn, by simpa using hget, ?_, ?_⟩
      · intro y hy
        rcases List.mem_cons.mp hy with rfl | hy'
        · exact hle
        · exact hmin y hy'
      · intro m hm
        cases m with
        | zero => simpa using hlt
        | succ m' => simpa using hearly m' (Nat.lt_of_succ_lt_succ hm)

theorem take100_eq_nil_iff {α : Type} (l : List α) : l.take 100 = [] ↔ l = [] := by
  cases l with
  | nil => simp
  | cons x xs => simp

/-- C5: the matcher returns none exactly when the fetched candidate list of
available drivers is empty; otherwise it returns a driver at minimal
Euclidean distance from the pickup point over the candidate list (the first
at most 100 available drivers, in store order), and every candidate placed
before the returned one is at strictly greater distance — so among
equidistant minima the first-encountered candidate wins. -/
theorem C5_find_nearest_minimal_first_tie
    (drivers : List (Nat × Main.DriverDoc)) (pickup : ℚ × ℚ) :
    (Main.find_nearest_driver drivers pickup = none ↔
        drivers.filter (fun p => p.2.is_available) = [])
    ∧ ∀ i, Main.find_nearest_driver drivers pickup = some i →
        ∃ d n,
        ∃ hn : n < ((drivers.filter fun p => p.2.is_available).take 100).length,
          ((drivers.filter fun p => p.2.is_available).take 100).get ⟨n, hn⟩ = (i, d)
          ∧ (∀ q ∈ (drivers.filter fun p => p.2.is_available).take 100,
              Main.euclid pickup d.current_location
                ≤ Main.euclid pickup q.2.current_location)
          ∧ ∀ m, ∀ hm : m < n,
              Main.euclid pickup d.current_location
                < Main.euclid pickup
                    (((drivers.filter fun p => p.2.is_available).take 100).get
                        ⟨m, Nat.lt_trans hm hn⟩).2.current_location := by
  constructor
  · unfold Main.find_nearest_driver
    rw [Option.map_eq_none', selectMin_eq_none_iff, take100_eq_nil_iff]
  · intro i hi
    unfold Main.find_nearest_driver at hi
    obtain ⟨p, hp, hpi⟩ := Option.map_eq_some'.mp hi
    obtain ⟨n, hn, hget, hmin, hearly⟩ := selectMin_spec _ _ _ hp
    refine ⟨p.2, n, hn, ?_, ?_, ?_⟩
    · rw [← hpi]
      simpa using hget
    · intro q hq
      exact Real.sqrt_le_sqrt (by exact_mod_cast hmin q hq)
    · intro m hm
      refine Real.sqrt_lt_sqrt (by exact_mod_cast Main.dist2_nonneg pickup p.2.current_location) ?_
      exact_mod_cast hearly m hm

theorem C5_find_nearest_minimal_first_tie_witness :
    Main.find_nearest_driver ([] : List (Nat × Main.DriverDoc)) (0, 0) = none
    ∧ ∃ d n,
      ∃ hn : n < (([(1, (⟨(0, 0), true⟩ : Main.DriverDoc)),
                    (2, ⟨(3, 4), true⟩)].filter fun p => p.2.is_available).take 100).length,
        (([(1, (⟨(0, 0), true⟩ : Main.DriverDoc)),
           (2, ⟨(3, 4), true⟩)].filter fun p => p.2.is_available).take 100).get ⟨n, hn⟩
          = (1, d)
        ∧ (∀ q ∈ ([(1, (⟨(0, 0), true⟩ : Main.DriverDoc)),
                   (2, ⟨(3, 4), true⟩)].filter fun p => p.2.is_available).take 100,
            Main.euclid (0, 0) d.current_location
              ≤ Main.euclid (0, 0) q.2.current_location)
        ∧ ∀ m, ∀ hm : m < n,
            Main.euclid (0, 0) d.current_location
              < Main.euclid (0, 0)
                  ((([(1, (⟨(0, 0), true⟩ : Main.DriverDoc)),
                      (2, ⟨(3, 4), true⟩)].filter fun p => p.2.is_available).take 100).get
                      ⟨m, Nat.lt_trans hm hn⟩).2.current_location :=
  ⟨(C5_find_nearest_minimal_first_tie [] (0, 0)).1.mpr rfl,
   (C5_find_nearest_minimal_first_tie
      [(1, ⟨(0, 0), true⟩), (2, ⟨(3, 4), true⟩)] (0, 0)).2 1
      (by norm_num [Main.find_nearest_driver, Main.selectMin, Main.selectStep,
        Main.dist2, List.filter])⟩

/-- C6 (counterexample): the claim says the estimated delivery time equals
`now + base + f(distance)` with a 20-minute base, so that at distance 0 the
ETA set at assignment is about `now + 20` minutes.  The service-layer
`create_delivery` (one of the claim's two cited code paths) stores a flat
`now + 30` minutes at assignment, independent of every coordinate — here
with `now = 0` the stored ETA is 1 800 000 ms, not 1 200 000 ms. -/
theorem C6_app_assignment_eta_is_flat_30min :
    (App.create_delivery
        ⟨[], [(7, ⟨"available", true, none, 0⟩)]⟩ 1
        ⟨"o", "c", "r", "p", "d", none, none⟩ 0).2.estimated_delivery_time
      = some 1800000
    ∧ (1800000 : ℕ) ≠ 0 + 20 * 60000 := by
  decide

/-- C6 (amended): in the endpoint variant, `calculate_eta` is
`now + (20 + ⌊100·distance⌋)` minutes — weakly monotone in the Euclidean
distance and equal to `now + 20` minutes when pickup and dropoff coincide —
and the delivery created with an immediate match stores exactly this value;
in the service-layer variant the ETA stored at assignment is a flat
`now + 30` minutes, not a function of distance. -/
theorem C6_amended_eta_base20_linear_or_flat30
    (p q p' q' : ℚ × ℚ) (now : Nat)
    (sM : Main.State) (newIdM : Nat) (inpM : Main.CreateInput) (didM : Nat)
    (sA : App.State) (newIdA : Nat) (inpA : App.CreateInput) (prA : Nat × App.DriverDoc)
    (nowM nowA : Nat)
    (hmono : Main.dist2 q p ≤ Main.dist2 q' p')
    (hmatchM : Main.find_nearest_driver sM.drivers inpM.pickup = some didM)
    (hfreshM : lookupA sM.deliveries newIdM = none)
    (hmatchA : App.find_available_driver sA = some prA)
    (hfreshA : lookupA sA.deliveries newIdA = none) :
    Main.calculate_eta p q now ≤ Main.calculate_eta p' q' now
    ∧ Main.calculate_eta p p now = (now : ℤ) + 20 * 60000
    ∧ (Main.create_delivery sM newIdM inpM nowM).2.estimated_delivery_time
        = some (Main.calculate_eta inpM.pickup inpM.dropoff nowM)
    ∧ lookupA (Main.create_delivery sM newIdM inpM nowM).1.deliveries newIdM
        = some (Main.create_delivery sM newIdM inpM nowM).2
    ∧ ((App.get_delivery (App.create_delivery sA newIdA inpA nowA).1 newIdA).map
        App.DeliveryDoc.estimated_delivery_time) = some (some (nowA + 30 * 60000)) := by
  refine ⟨?_, ?_, ?_, ?_, ?_⟩
  · unfold Main.calculate_eta Main.euclid
    dsimp only
    have hs : Real.sqrt ((Main.dist2 q p : ℚ) : ℝ)
        ≤ Real.sqrt ((Main.dist2 q' p' : ℚ) : ℝ) :=
      Real.sqrt_le_sqrt (by exact_mod_cast hmono)
    have hf : ⌊(100 : ℝ) * Real.sqrt ((Main.dist2 q p : ℚ) : ℝ)⌋
        ≤ ⌊(100 : ℝ) * Real.sqrt ((Main.dist2 q' p' : ℚ) : ℝ)⌋ :=
      Int.floor_le_floor (mul_le_mul_of_nonneg_left hs (by norm_num))
    omega
  · unfold Main.calculate_eta Main.euclid
    have h0 : Main.dist2 p p = 0 := by
      unfold Main.dist2
      simp
    rw [h0]
    norm_num
  · simp [Main.create_delivery, hmatchM]
  · have h2 : ∀ v : Main.DeliveryDoc,
        lookupA (sM.deliveries ++ [(newIdM, v)]) newIdM = some v :=
      fun v => lookupA_append_fresh sM.deliveries newIdM v hfreshM
    simp [Main.create_delivery, hmatchM, h2]
  · have h1 : ∀ (v : App.DeliveryDoc) (f : App.DeliveryDoc → App.DeliveryDoc),
        updateFirstA (sA.deliveries ++ [(newIdA, v)]) newIdA f
          = sA.deliveries ++ [(newIdA, f v)] :=
      fun v f => updateFirstA_append_fresh sA.deliveries newIdA v f hfreshA
    have h2 : ∀ v : App.DeliveryDoc,
        lookupA (sA.deliveries ++ [(newIdA, v)]) newIdA = some v :=
      fun v => lookupA_append_fresh sA.deliveries newIdA v hfreshA
    simp [App.create_delivery, hmatchA, App.get_delivery, App.add_tracking_event, h1, h2]

theorem C6_amended_eta_base20_linear_or_flat30_witness :
    Main.calculate_eta (0, 0) (0, 0) 0 ≤ Main.calculate_eta (0, 0) (3, 4) 0
    ∧ Main.calculate_eta (0, 0) (0, 0) 0 = ((0 : Nat) : ℤ) + 20 * 60000
    ∧ (Main.create_delivery ⟨[], [(4, ⟨(0, 0), true⟩)]⟩ 1
        ⟨"om", (0, 0), (0, 0), "pending"⟩ 2).2.estimated_delivery_time
        = some (Main.calculate_eta (0, 0) (0, 0) 2)
    ∧ lookupA (Main.create_delivery ⟨[], [(4, ⟨(0, 0), true⟩)]⟩ 1
        ⟨"om", (0, 0), (0, 0), "pending"⟩ 2).1.deliveries 1
        = some (Main.create_delivery ⟨[], [(4, ⟨(0, 0), true⟩)]⟩ 1
            ⟨"om", (0, 0), (0, 0), "pending"⟩ 2).2
    ∧ ((App.get_delivery
        (App.create_delivery ⟨[], [(7, ⟨"available", true, none, 0⟩)]⟩ 1
          ⟨"o", "c", "r", "p", "d", none, none⟩ 3).1 1).map
        App.DeliveryDoc.estimated_delivery_time) = some (some (3 + 30 * 60000)) :=
  C6_amended_eta_base20_linear_or_flat30 (0, 0) (0, 0) (0, 0) (3, 4) 0
    ⟨[], [(4, ⟨(0, 0), true⟩)]⟩ 1 ⟨"om", (0, 0), (0, 0), "pending"⟩ 4
    ⟨[], [(7, ⟨"available", true, none, 0⟩)]⟩ 1
    ⟨"o", "c", "r", "p", "d", none, none⟩ (7, ⟨"available", true, none, 0⟩) 2 3
    (by norm_num [Main.dist2])
    (by norm_num [Main.find_nearest_driver, Main.selectMin, Main.selectStep,
      Main.dist2, List.filter])
    rfl (by decide) rfl

end FoodDelivery

